import Mathlib

/-!
Shallow embedding of the city-sim data pipeline
(src/data-pipeline/generate_city.py) in Lean 4.

Numbers are modelled as rationals; Python float round (banker's rounding)
is modelled by round-half-to-even on the rationals.  A pandas row is
modelled as an association list from tag key to a tag value, where a
value is either the string "nan" placeholder (a missing cell), a plain
string, or a list of strings (osmnx multi-valued tags).
-/

namespace CitySim

/-- Tag value of a feature row: a pandas NaN cell, a plain string, or a
list of strings. -/
inductive TagVal where
  | nan : TagVal
  | s (v : String) : TagVal
  | l (vs : List String) : TagVal
deriving DecidableEq, Repr

/-- A feature row: association list from tag key to value, as pandas
presents it.  Key lookup takes the first binding, like column access. -/
abbrev Row := List (String × TagVal)

/-- Apostrophe character, written by code point to keep sources plain. -/
def apos : Char := Char.ofNat 39

/-- Python repr quoting of one list element. -/
def pyQuote (v : String) : String := String.mk (apos :: (v.data ++ [apos]))

/-- Python str() of a tag value: NaN prints "nan", a list prints its
repr with quoted elements. -/
def pyStr : TagVal → String
  | .nan => "nan"
  | .s v => v
  | .l vs => "[" ++ String.intercalate ", " (vs.map pyQuote) ++ "]"

/-- Lower-cased character list of a string (Python str.lower). -/
def lowerChars (s : String) : List Char := s.data.map Char.toLower

/-- Value of a digit run read in base 10 (Python int of a digit string). -/
def digitsToNat (ds : List Char) : Nat :=
  ds.foldl (fun a c => a * 10 + (c.toNat - 48)) 0

/-- Python float() applied to a string made only of digits and dots:
defined iff there is at least one digit and at most one dot. -/
def pyFloatDigitsDot (cs : List Char) : Option ℚ :=
  if (cs.filter (fun c => c == '.')).length ≥ 2 then none
  else if cs.all (fun c => c == '.') then none
  else
    let ip := cs.takeWhile (fun c => c != '.')
    let fp := (cs.dropWhile (fun c => c != '.')).drop 1
    some ((digitsToNat ip : ℚ) + (digitsToNat fp : ℚ) / (10 : ℚ) ^ fp.length)

/-- Python round to the nearest integer, halves to even (banker's). -/
def rhe (q : ℚ) : ℤ :=
  if q - ⌊q⌋ = 1/2 then (if 2 ∣ ⌊q⌋ then ⌊q⌋ else ⌊q⌋ + 1) else round q

/-- Python round(x, 1). -/
def round1 (q : ℚ) : ℚ := (rhe (q * 10) : ℚ) / 10

/-- Python round(x, 2). -/
def round2 (q : ℚ) : ℚ := (rhe (q * 100) : ℚ) / 100

/-- Keep only digits and dots of a string, as the height cleaner does. -/
def cleanNum (cs : List Char) : List Char :=
  cs.filter (fun c => c.isDigit || c == '.')

/-- Numeric value a tag yields in get_height: float of the
digits-and-dots cleaning of its str() form. -/
def tagParse (v : TagVal) : Option ℚ :=
  pyFloatDigitsDot (cleanNum (pyStr v).data)

/-- The elif arm of get_height, reached only when the "height" branch
condition is false: a present non-nan "building:levels" tag parsed and
multiplied by 3.5, the initial 8.0 surviving otherwise. -/
def levelsFallback (row : Row) : ℚ :=
  match row.lookup "building:levels" with
  | some w =>
      if lowerChars (pyStr w) ≠ "nan".data then
        match tagParse w with
        | some x => x * (7/2)
        | none => 8
      else 8
  | none => 8

/-- Embeds get_height of generate_city.py.  The source initialises
h = 8.0, overwrites it inside an if branch keyed on the "height" tag
(entered whenever that tag is present and its lowered str() form is not
"nan", the try/except leaving h at 8.0 on parse failure), reaches the
"building:levels" elif only when that first condition is false, and
returns round(h, 1). -/
def get_height (row : Row) : ℚ :=
  round1 <|
    match row.lookup "height" with
    | some v =>
        if lowerChars (pyStr v) ≠ "nan".data then
          match tagParse v with
          | some x => x
          | none => 8
        else levelsFallback row
    | none => levelsFallback row

/-- Substring containment on character lists (Python "x in s"). -/
def strContains (hay needle : List Char) : Bool :=
  match hay with
  | [] => needle.isEmpty
  | _ :: t => needle.isPrefixOf hay || strContains t needle

/-- Leftmost-first match of the number regex alternative
sign? digits* dot digits+ at the head of the list, returning its value.
The digit runs are maximal, so the backtracking of the greedy star
never produces a different match. -/
def matchAlt1 (cs : List Char) : Option ℚ :=
  let signed := cs.head? = some '-'
  let rest := if cs.head? = some '-' || cs.head? = some '+' then cs.drop 1 else cs
  let ip := rest.takeWhile Char.isDigit
  let rest2 := rest.drop ip.length
  match rest2 with
  | c :: t =>
      if c = '.' then
        let fp := t.takeWhile Char.isDigit
        if fp.isEmpty then none
        else
          let m : ℚ := (digitsToNat ip : ℚ) + (digitsToNat fp : ℚ) / (10 : ℚ) ^ fp.length
          some (if signed then -m else m)
      else none
  | [] => none

/-- Match of the second regex alternative digits+ at the head. -/
def matchAlt2 (cs : List Char) : Option ℚ :=
  let ds := cs.takeWhile Char.isDigit
  if ds.isEmpty then none else some (digitsToNat ds)

/-- First match of the width regex over the string, scanning left to
right and trying the fractional alternative before the integer one at
each position, as re.findall does; returns its float value. -/
def findFirstNum : List Char → Option ℚ
  | [] => none
  | c :: t =>
      match matchAlt1 (c :: t) with
      | some q => some q
      | none =>
          match matchAlt2 (c :: t) with
          | some q => some q
          | none => findFirstNum t

/-- Feet-marker test of estimate_road_width: an apostrophe, "ft" or
"feet" occurs in the lowered value string. -/
def feetMarker (valStr : List Char) : Bool :=
  strContains valStr [apos] || strContains valStr "ft".data ||
    strContains valStr "feet".data

/-- Feet-to-meter factor 0.3048. -/
def FT_TO_M : ℚ := 381/1250

/-- Width the first loop of estimate_road_width derives from one key:
none when the key is absent, its str() form is the literal "nan", or no
number occurs in the lowered value string; otherwise the first number,
converted by 0.3048 when a feet marker occurs, else when it exceeds 50. -/
def widthFromKey (row : Row) (key : String) : Option ℚ :=
  match row.lookup key with
  | none => none
  | some v =>
      if pyStr v ≠ "nan" then
        let valStr := lowerChars (pyStr v)
        match findFirstNum valStr with
        | some val =>
            if feetMarker valStr then some (val * FT_TO_M)
            else if val > 50 then some (val * FT_TO_M)
            else some val
        | none => none
      else none

/-- Key-priority list of the width scan. -/
def widthKeys : List String := ["width", "width:carriageway", "est_width"]

/-- First key of the list yielding a width. -/
def scanWidthKeys (row : Row) : List String → Option ℚ
  | [] => none
  | k :: ks =>
      match widthFromKey row k with
      | some w => some w
      | none => scanWidthKeys row ks

/-- First maximal digit run of a string with its int() value, as
re.findall of the digits regex followed by int of the head delivers. -/
def firstDigitRun : List Char → Option Nat
  | [] => none
  | c :: t =>
      if c.isDigit then some (digitsToNat ((c :: t).takeWhile Char.isDigit))
      else firstDigitRun t

/-- Default lane width in meters. -/
def LANE_WIDTH_DEFAULT : ℚ := 7/2

/-- Width the lanes branch derives: the first digit run of str(lanes),
clamped to the interval from 1 to 6, times the default lane width. -/
def lanesWidth (row : Row) : Option ℚ :=
  match row.lookup "lanes" with
  | none => none
  | some v =>
      if pyStr v ≠ "nan" then
        match firstDigitRun (pyStr v).data with
        | some n => some ((max 1 (min n 6) : ℚ) * LANE_WIDTH_DEFAULT)
        | none => none
      else none

/-- Classification-to-width table of the configuration section. -/
def DEFAULT_WIDTHS : List (String × ℚ) :=
  [("motorway", 12), ("trunk", 11), ("primary", 10), ("secondary", 9),
   ("tertiary", 8), ("residential", 6), ("service", 4), ("unclassified", 5),
   ("cycleway", 2), ("footway", 3/2), ("path", 3/2)]

/-- Fallback width from the highway tag: row.get with default
"residential", a list value replaced by its first entry, then the table
with default 4.0.  A NaN cell is no dict key, so it falls to 4.0.  The
source indexes a list value blindly, so an empty list (which osmnx
never yields) would raise; here it reads as the empty string. -/
def highwayWidth (row : Row) : ℚ :=
  match row.lookup "highway" with
  | none => ((DEFAULT_WIDTHS.lookup "residential").getD 4)
  | some .nan => 4
  | some (.s v) => ((DEFAULT_WIDTHS.lookup v).getD 4)
  | some (.l vs) => ((DEFAULT_WIDTHS.lookup (vs.headD "")).getD 4)

/-- Embeds estimate_road_width of generate_city.py: the width-key scan,
then the lanes branch, then the highway fallback. -/
def estimate_road_width (row : Row) : ℚ :=
  match scanWidthKeys row widthKeys with
  | some w => w
  | none =>
      match lanesWidth row with
      | some w => w
      | none => highwayWidth row

/-- Population density factor of the configuration section (0.05). -/
def POP_DENSITY_FACTOR : ℚ := 1/20

/-- Job density factor of the configuration section (0.08). -/
def JOB_DENSITY_FACTOR : ℚ := 2/25

/-- Residential keyword list of classify_building. -/
def residential_tags : List String :=
  ["apartments", "residential", "house", "detached", "terrace",
   "dormitory", "hotel"]

/-- Commercial keyword list of classify_building. -/
def commercial_tags : List String :=
  ["commercial", "office", "retail", "industrial", "university",
   "school", "hospital", "public"]

/-- Lowered str() of row.get with a string default. -/
def tagLower (row : Row) (k dflt : String) : List Char :=
  lowerChars (match row.lookup k with | none => dflt | some v => pyStr v)

/-- Residential flag of classify_building: some residential keyword is
a substring of the lowered building tag (default "yes"). -/
def isResOf (row : Row) : Bool :=
  residential_tags.any (fun t => strContains (tagLower row "building" "yes") t.data)

/-- Preliminary commercial flag of classify_building: a commercial
keyword in the building tag, or a non-empty non-nan amenity, office or
shop tag. -/
def isComOf (row : Row) : Bool :=
  commercial_tags.any (fun t => strContains (tagLower row "building" "yes") t.data)
    || (tagLower row "amenity" "" ≠ "nan".data && tagLower row "amenity" "" ≠ [])
    || (tagLower row "office" "" ≠ "nan".data && tagLower row "office" "" ≠ [])
    || (tagLower row "shop" "" ≠ "nan".data && tagLower row "shop" "" ≠ [])

/-- Embeds classify_building of generate_city.py, returning the
(category, density score, population, jobs) tuple.  When neither flag
is set the source applies the volume tie-break before the final
branches, so the category "none" arm is never reached. -/
def classify_building (row : Row) (height area : ℚ) : String × ℚ × ℤ × ℤ :=
  let volume := area * height
  let is_res := isResOf row
  let is_com := isComOf row
  let flags :=
    if !is_res && !is_com then
      if volume > 5000 then (is_res, true) else (true, is_com)
    else (is_res, is_com)
  if flags.1 then
    let pop := rhe (volume * POP_DENSITY_FACTOR)
    ("residential", min 1 ((pop : ℚ) / 500), pop, 0)
  else if flags.2 then
    let jobs := rhe (volume * JOB_DENSITY_FACTOR)
    ("commercial", min 1 ((jobs : ℚ) / 1000), 0, jobs)
  else
    ("none", 0, 0, 0)

/-- Source polygon: exterior ring and interior rings, coordinates in
the projected meter plane. -/
structure Poly where
  exterior : List (ℚ × ℚ)
  interiors : List (List (ℚ × ℚ))
deriving DecidableEq, Repr

/-- Shapely geometry as the pipeline distinguishes it: the is_empty
check comes first in the source, so emptiness is one case; polygon and
multi-polygon are the area cases; anything else (lines, points,
collections) falls through the geom_type dispatch. -/
inductive Geom where
  | emptyGeom : Geom
  | polygon (p : Poly) : Geom
  | multiPolygon (ps : List Poly) : Geom
  | lineString (pts : List (ℚ × ℚ)) : Geom
  | other : Geom
deriving DecidableEq, Repr

/-- Output shape record: recentred rounded outer ring and hole rings. -/
structure ShapeOut where
  outer : List (ℚ × ℚ)
  holes : List (List (ℚ × ℚ))
deriving DecidableEq, Repr

/-- Recentring and rounding of one source polygon. -/
def extractPoly (p : Poly) (cx cy : ℚ) : ShapeOut :=
  { outer := p.exterior.map (fun pt => (round2 (pt.1 - cx), round2 (pt.2 - cy))),
    holes := p.interiors.map (fun ring =>
      ring.map (fun pt => (round2 (pt.1 - cx), round2 (pt.2 - cy)))) }

/-- Embeds parse_geometry of generate_city.py: empty geometry gives the
empty list, a polygon one record, a multi-polygon one per part, any
other geometry the empty list. -/
def parse_geometry (g : Geom) (cx cy : ℚ) : List ShapeOut :=
  match g with
  | .emptyGeom => []
  | .polygon p => [extractPoly p cx cy]
  | .multiPolygon ps => ps.map (fun p => extractPoly p cx cy)
  | .lineString _ => []
  | .other => []

/-- Input feature of the visual loop: its tag row, its geometry, and
the area and centroid shapely computes from that geometry. -/
structure Feature where
  row : Row
  geom : Geom
  area : ℚ
  centroid : ℚ × ℚ
deriving Repr

/-- Tag-presence test of the visual loop: key in row and str() not the
literal "nan". -/
def tagPresent (row : Row) (k : String) : Bool :=
  match row.lookup k with
  | none => false
  | some v => pyStr v ≠ "nan"

/-- Visual category of the per-feature dispatch. -/
inductive VisKind where
  | building : VisKind
  | water : VisKind
  | park : VisKind
deriving DecidableEq, Repr

/-- Embeds the cascading dispatch of the visual loop: building tag
first, then natural or water, then the unconditional park arm. -/
def visKind (row : Row) : VisKind :=
  if tagPresent row "building" then .building
  else if tagPresent row "natural" || tagPresent row "water" then .water
  else .park

/-- Building record of the scene document. -/
structure BuildingRec where
  shape : ShapeOut
  height : ℚ
  btype : String
  density : ℚ
  pop : ℤ
  jobs : ℤ
deriving DecidableEq, Repr

/-- Centroid entry appended to building_data_points. -/
structure BuildingPoint where
  x : ℚ
  y : ℚ
  pop : ℤ
  jobs : ℤ
deriving DecidableEq, Repr

/-- Embeds one iteration of the visual loop over features: the shape
list from parse_geometry, and for each shape record either a building
record plus a centroid index entry, a water shape, or a park shape.
The source recomputes height, classification and centroid inside the
inner per-shape loop from the fixed row and geometry, so every part of
a multi-part feature receives identical derived values. -/
def processFeature (f : Feature) (cx cy : ℚ) :
    List BuildingRec × List ShapeOut × List ShapeOut × List BuildingPoint :=
  let polygons := parse_geometry f.geom cx cy
  match visKind f.row with
  | .building =>
      let height := get_height f.row
      let r := classify_building f.row height f.area
      let bx := f.centroid.1 - cx
      let by' := f.centroid.2 - cy
      (polygons.map (fun pd =>
          { shape := pd, height := height, btype := r.1, density := r.2.1,
            pop := r.2.2.1, jobs := r.2.2.2 }),
       [], [],
       polygons.map (fun _ => { x := bx, y := by', pop := r.2.2.1, jobs := r.2.2.2 }))
  | .water => ([], polygons, [], [])
  | .park => ([], [], polygons, [])

/-- Shapely cap-style code for round caps. -/
def CAP_ROUND : Nat := 1

/-- Shapely cap-style code for flat (butt, also called square-ended)
caps, the value 2 the source passes. -/
def CAP_FLAT : Nat := 2

/-- Shapely join-style code for round joins. -/
def JOIN_ROUND : Nat := 1

/-- Shapely join-style code for mitre joins, the value 2 the source
passes. -/
def JOIN_MITRE : Nat := 2

/-- Arguments of one buffer call of the road loop. -/
structure BufferCall where
  dist : ℚ
  capStyle : Nat
  joinStyle : Nat
deriving DecidableEq, Repr

/-- Embeds the road buffering loop body: the edge geometry is buffered
by half the estimated width with cap_style 2 and join_style 2. -/
def bufferRoad (row : Row) : BufferCall :=
  { dist := estimate_road_width row / 2, capStyle := 2, joinStyle := 2 }

/-- Inclusion test of the fixed-radius query: squared Euclidean
distance of the building centroid from the node position at most the
squared radius, the inclusive boundary cKDTree.query_ball_point uses. -/
def withinRadius (b : BuildingPoint) (nx ny r : ℚ) : Bool :=
  decide ((b.x - nx) ^ 2 + (b.y - ny) ^ 2 ≤ r ^ 2)

/-- Aggregation radius in meters. -/
def AGG_RADIUS : ℚ := 100

/-- Embeds the per-node census mapping: with no indexed buildings the
stats are zero; otherwise the query collects the buildings within the
radius, an empty result gives zero, and a non-empty result is summed
componentwise as np.sum does along axis 0. -/
def nodeStats (bs : List BuildingPoint) (nx ny : ℚ) : ℤ × ℤ :=
  if bs.isEmpty then (0, 0)
  else
    let near := bs.filter (fun b => withinRadius b nx ny AGG_RADIUS)
    if near.isEmpty then (0, 0)
    else near.foldl (fun a b => (a.1 + b.pop, a.2 + b.jobs)) (0, 0)

/-- Road graph as graph_to_gdfs hands it to the assembly: the node
frame rows, the (u, v, key) edge triples of the topology, and the edge
attribute frame keyed by triple. -/
structure RGraph where
  nodes : List (ℤ × ℚ × ℚ)
  edges : List (ℤ × ℤ × ℤ)
  edgeRows : List ((ℤ × ℤ × ℤ) × Row)

/-- Node identifiers entering the routing document node map: one key
per node frame row. -/
def assembleNodeIds (g : RGraph) : List ℤ :=
  g.nodes.map (fun n => n.1)

/-- Edge records of the routing document, reduced to their node
references: a triple whose attribute lookup raises KeyError is skipped
by the continue, the rest contribute their (u, v) pair. -/
def assembleEdges (g : RGraph) : List (ℤ × ℤ) :=
  g.edges.filterMap (fun e =>
    match g.edgeRows.lookup e with
    | none => none
    | some _ => some (e.1, e.2.1))

/-!
Claim-side mirror definitions.  These follow the wording of the spec
claims (amended where a counterexample forces it), to be compared with
the source-side functions above.
-/

/-- Claim-side reading of tag availability: the tag is present and its
lowered string form is not the nan placeholder. -/
def usableTag (row : Row) (k : String) : Option TagVal :=
  match row.lookup k with
  | none => none
  | some v => if lowerChars (pyStr v) = "nan".data then none else some v

/-- Height policy as the amended height claim words it: a usable
"height" tag is authoritative, giving its parsed number or, when no
number parses from it, the default 8.0, without consulting any other
tag; only with no usable "height" tag does a usable "building:levels"
tag give its parsed number times 3.5, the default 8.0 covering the
rest; every outcome is rounded to 1 decimal place. -/
def claimHeight (row : Row) : ℚ :=
  match usableTag row "height" with
  | some v => round1 ((tagParse v).getD 8)
  | none =>
      match usableTag row "building:levels" with
      | some w => round1 (((tagParse w).map (fun x => x * (7/2))).getD 8)
      | none => round1 8

/-- Claim-side width scan of one key: the lowered value string paired
with the first parseable number it contains. -/
def claimWidthNum (row : Row) (k : String) : Option (List Char × ℚ) :=
  match row.lookup k with
  | none => none
  | some v =>
      (findFirstNum (lowerChars (pyStr v))).map (fun q => (lowerChars (pyStr v), q))

/-- Claim-side scan over the three width-like keys in their stated
priority order, keeping the first that contains a parseable number. -/
def claimWidthScan (row : Row) : Option (List Char × ℚ) :=
  (claimWidthNum row "width").orElse fun _ =>
    (claimWidthNum row "width:carriageway").orElse fun _ =>
      claimWidthNum row "est_width"

/-- Claim-side lane count: the first number parsing from the "lanes"
tag value. -/
def claimLanes (row : Row) : Option Nat :=
  match row.lookup "lanes" with
  | none => none
  | some v => firstDigitRun (pyStr v).data

/-!
Shared helper lemmas.
-/

/-- Ten times a value rounded to one decimal place is an integer. -/
theorem round1_tenths (q : ℚ) : round1 q * 10 = ((rhe (q * 10) : ℤ) : ℚ) := by
  unfold round1
  field_simp

/-!
Claim theorems.
-/

/-- C1, counterexample.  The claim asserts that a mapping whose
"height" value is unparseable but whose "building:levels" value parses
yields levels times 3.5; on the row with height "abc" and levels "3"
the source keeps the default 8.0 instead of 10.5, because the
building:levels branch is an elif of the height-presence test, not of
the parse success. -/
theorem C1_counterexample :
    tagParse (TagVal.s "abc") = none
    ∧ tagParse (TagVal.s "3") = some 3
    ∧ get_height [("height", TagVal.s "abc"), ("building:levels", TagVal.s "3")] = 8
    ∧ (8 : ℚ) ≠ 3 * (7/2) := by
  refine ⟨by simp [tagParse, pyStr, cleanNum, pyFloatDigitsDot, digitsToNat], ?_, ?_, by norm_num⟩
  · simp [tagParse, pyStr, cleanNum, pyFloatDigitsDot, digitsToNat]
  · simp [get_height, levelsFallback, tagParse, pyStr, lowerChars, cleanNum,
          pyFloatDigitsDot, digitsToNat, round1, rhe, List.lookup]
    norm_num [round_eq]

/-- C1 (amended): for every tag mapping, a present non-nan "height" tag
is authoritative — a parseable number in it is returned directly as
meters and an unparseable one yields the fixed default 8.0 without
consulting "building:levels"; only when the "height" tag is absent or
nan does a parseable "building:levels" value give levels times 3.5,
with the default 8.0 otherwise; the result is always rounded to 1
decimal place and the function is total.  The spec examples hold:
height "12 m" gives 12.0, levels "3" alone gives 10.5, no tags give
8.0. -/
theorem C1_height_policy :
    (∀ row : Row, get_height row = claimHeight row ∧ ∃ z : ℤ, get_height row * 10 = (z : ℚ))
    ∧ get_height [("height", TagVal.s "12 m")] = 12
    ∧ get_height [("building:levels", TagVal.s "3")] = 21/2
    ∧ get_height [] = 8 := by
  refine ⟨fun row => ⟨?_, ?_⟩, ?_, ?_, ?_⟩
  · unfold get_height claimHeight usableTag levelsFallback
    cases h1 : List.lookup "height" row with
    | none =>
        cases h2 : List.lookup "building:levels" row with
        | none => simp
        | some w =>
            by_cases h3 : lowerChars (pyStr w) = "nan".data
            · simp [h3]
            · simp [h3]
              cases tagParse w <;> simp
    | some v =>
        by_cases h3 : lowerChars (pyStr v) = "nan".data
        · simp [h3]
          cases h2 : List.lookup "building:levels" row with
          | none => simp
          | some w =>
              by_cases h4 : lowerChars (pyStr w) = "nan".data
              · simp [h4]
              · simp [h4]
                cases tagParse w <;> simp
        · simp [h3]
          cases tagParse v <;> simp
  · unfold get_height
    exact ⟨_, round1_tenths _⟩
  · simp [get_height, levelsFallback, tagParse, pyStr, lowerChars, cleanNum,
          pyFloatDigitsDot, digitsToNat, round1, rhe, List.lookup]
    norm_num [round_eq]
  · simp [get_height, levelsFallback, tagParse, pyStr, lowerChars, cleanNum,
          pyFloatDigitsDot, digitsToNat, round1, rhe, List.lookup]
    norm_num [round_eq]
  · simp [get_height, levelsFallback, round1, rhe, List.lookup]
    norm_num [round_eq]


theorem widthFromKey_eq (row : Row) (k : String) :
    widthFromKey row k =
      (claimWidthNum row k).map
        (fun p => if feetMarker p.1 || p.2 > 50 then p.2 * FT_TO_M else p.2) := by
  unfold widthFromKey claimWidthNum
  cases h1 : List.lookup k row with
  | none => simp
  | some v =>
      by_cases h2 : pyStr v = "nan"
      · simp [h2, lowerChars, findFirstNum, matchAlt1, matchAlt2]
      · simp [h2]
        cases h3 : findFirstNum (lowerChars (pyStr v)) with
        | none => simp
        | some q =>
            simp
            by_cases h4 : feetMarker (lowerChars (pyStr v)) <;>
              by_cases h5 : q > 50 <;> simp [h4, h5]

theorem scanWidthKeys_eq (row : Row) :
    scanWidthKeys row widthKeys =
      (claimWidthScan row).map
        (fun p => if feetMarker p.1 || p.2 > 50 then p.2 * FT_TO_M else p.2) := by
  unfold claimWidthScan widthKeys
  simp [scanWidthKeys, widthFromKey_eq]
  cases claimWidthNum row "width" with
  | some p => simp [Option.orElse]
  | none =>
      simp [Option.orElse]
      cases claimWidthNum row "width:carriageway" with
      | some p => simp [Option.orElse]
      | none =>
          simp [Option.orElse]
          cases claimWidthNum row "est_width" <;> simp [Option.orElse]

theorem lanesWidth_eq (row : Row) :
    lanesWidth row =
      (claimLanes row).map (fun n => (max 1 (min n 6) : ℚ) * LANE_WIDTH_DEFAULT) := by
  unfold lanesWidth claimLanes
  cases h1 : List.lookup "lanes" row with
  | none => simp
  | some v =>
      by_cases h2 : pyStr v = "nan"
      · simp [h2, firstDigitRun]
      · simp [h2]
        cases firstDigitRun (pyStr v).data <;> simp

theorem C2_road_width_policy :
    (∀ (row : Row) (s : List Char) (q : ℚ), claimWidthScan row = some (s, q) →
        estimate_road_width row = if feetMarker s || q > 50 then q * FT_TO_M else q)
    ∧ (∀ (row : Row) (n : Nat), claimWidthScan row = none → claimLanes row = some n →
        estimate_road_width row = ((min 6 (max 1 n) : Nat) : ℚ) * LANE_WIDTH_DEFAULT)
    ∧ (∀ (row : Row) (v : String), claimWidthScan row = none → claimLanes row = none →
        row.lookup "highway" = some (TagVal.s v) →
        estimate_road_width row = (DEFAULT_WIDTHS.lookup v).getD 4)
    ∧ (∀ (row : Row) (v : String) (vs : List String),
        claimWidthScan row = none → claimLanes row = none →
        row.lookup "highway" = some (TagVal.l (v :: vs)) →
        estimate_road_width row = (DEFAULT_WIDTHS.lookup v).getD 4)
    ∧ estimate_road_width [("width", TagVal.s "20 ft")] = 762/125
    ∧ estimate_road_width [("width", TagVal.s "60")] = 2286/125
    ∧ estimate_road_width [("lanes", TagVal.s "3")] = 21/2
    ∧ estimate_road_width [("highway", TagVal.s "residential")] = 6 := by
  refine ⟨?_, ?_, ?_, ?_, ?_, ?_, ?_, ?_⟩
  · intro row s q h
    unfold estimate_road_width
    rw [scanWidthKeys_eq, h]
    simp
  · intro row n hscan hl
    unfold estimate_road_width
    rw [scanWidthKeys_eq, hscan, lanesWidth_eq, hl]
    have h1 : (min 6 (max 1 n) : Nat) = max 1 (min n 6) := by omega
    rw [h1]
    push_cast [Nat.cast_max, Nat.cast_min]
    rfl
  · intro row v hscan hl hh
    unfold estimate_road_width
    rw [scanWidthKeys_eq, hscan, lanesWidth_eq, hl]
    simp [highwayWidth, hh]
  · intro row v vs hscan hl hh
    unfold estimate_road_width
    rw [scanWidthKeys_eq, hscan, lanesWidth_eq, hl]
    simp [highwayWidth, hh]
  · simp [estimate_road_width, scanWidthKeys, widthKeys, widthFromKey, pyStr, lowerChars,
          findFirstNum, matchAlt1, matchAlt2, digitsToNat, feetMarker, strContains, apos,
          FT_TO_M, List.lookup]
    norm_num
  · simp [estimate_road_width, scanWidthKeys, widthKeys, widthFromKey, pyStr, lowerChars,
          findFirstNum, matchAlt1, matchAlt2, digitsToNat, feetMarker, strContains, apos,
          FT_TO_M, List.lookup]
    norm_num
  · simp [estimate_road_width, scanWidthKeys, widthKeys, widthFromKey, lanesWidth, firstDigitRun,
          pyStr, lowerChars, digitsToNat, LANE_WIDTH_DEFAULT, List.lookup]
    norm_num
  · simp [estimate_road_width, scanWidthKeys, widthKeys, widthFromKey, lanesWidth, highwayWidth,
          DEFAULT_WIDTHS, List.lookup]

theorem C2_road_width_policy_witness :
    estimate_road_width [("width", TagVal.s "20 ft")] = 20 * FT_TO_M
    ∧ estimate_road_width [("lanes", TagVal.s "3")] = ((min 6 (max 1 3) : Nat) : ℚ) * LANE_WIDTH_DEFAULT
    ∧ estimate_road_width [("highway", TagVal.s "motorway")] = (DEFAULT_WIDTHS.lookup "motorway").getD 4
    ∧ estimate_road_width [("highway", TagVal.l ["footway", "path"])] = (DEFAULT_WIDTHS.lookup "footway").getD 4 := by
  refine ⟨?_, ?_, ?_, ?_⟩
  · have h1 := C2_road_width_policy.1 [("width", TagVal.s "20 ft")] (lowerChars (pyStr (TagVal.s "20 ft"))) 20 ?h
    case h =>
      simp [claimWidthScan, claimWidthNum, lowerChars, pyStr, findFirstNum, matchAlt1,
            matchAlt2, digitsToNat, Option.orElse, List.lookup]
    rw [h1]
    simp [feetMarker, strContains, lowerChars, pyStr, apos, List.isPrefixOf]
  · have h2 := C2_road_width_policy.2.1 [("lanes", TagVal.s "3")] 3 ?hs ?hl
    case hs =>
      simp [claimWidthScan, claimWidthNum, lowerChars, pyStr, findFirstNum, matchAlt1,
            matchAlt2, Option.orElse, List.lookup]
    case hl =>
      simp [claimLanes, firstDigitRun, pyStr, digitsToNat, List.lookup]
    exact h2
  · exact C2_road_width_policy.2.2.1 [("highway", TagVal.s "motorway")] "motorway"
      (by simp [claimWidthScan, claimWidthNum, Option.orElse, List.lookup])
      (by simp [claimLanes, List.lookup])
      (by simp [List.lookup])
  · exact C2_road_width_policy.2.2.2.1 [("highway", TagVal.l ["footway", "path"])] "footway" ["path"]
      (by simp [claimWidthScan, claimWidthNum, lowerChars, pyStr, pyQuote, apos, findFirstNum,
                matchAlt1, matchAlt2, Option.orElse, List.lookup])
      (by simp [claimLanes, firstDigitRun, pyStr, pyQuote, apos, List.lookup])
      (by simp [List.lookup])

/-- C3: every road edge is buffered by exactly half the width
estimate_road_width returns for its tag row, with the flat cap style
(shapely code 2, the square-ended cap of the spec wording) and the
mitre join style (code 2), and in particular never the round cap
(code 1). -/
theorem C3_buffer_call :
    ∀ row : Row,
      (bufferRoad row).dist = estimate_road_width row / 2
      ∧ (bufferRoad row).capStyle = CAP_FLAT
      ∧ (bufferRoad row).joinStyle = JOIN_MITRE
      ∧ (bufferRoad row).capStyle ≠ CAP_ROUND := by
  intro row
  refine ⟨rfl, rfl, rfl, ?_⟩
  simp [bufferRoad, CAP_ROUND]

/-- C8: parse_geometry maps an empty geometry to the empty shape list,
and likewise any non-area geometry (a line or any other non-polygon
type), totally and without any error path. -/
theorem C8_parse_geometry_recovery :
    (∀ cx cy : ℚ, parse_geometry Geom.emptyGeom cx cy = [])
    ∧ (∀ (pts : List (ℚ × ℚ)) (cx cy : ℚ), parse_geometry (Geom.lineString pts) cx cy = [])
    ∧ (∀ cx cy : ℚ, parse_geometry Geom.other cx cy = []) :=
  ⟨fun _ _ => rfl, fun _ _ _ => rfl, fun _ _ => rfl⟩

/-- C4: for every building whose tags set neither the residential nor
the commercial flag (no keyword match and no non-empty non-nan
amenity, office or shop tag), classify_building applies the volume
tie-break on volume = area times height: volume over 5000 gives
commercial with jobs = round(volume times 0.08) and density
min(1, jobs/1000), otherwise residential with pop = round(volume times
0.05) and density min(1, pop/500); volume 6000 with type yes gives
commercial with 480 jobs, and volume 200 with type apartments gives
residential with pop 10 and density 0.02. -/
theorem C4_volume_tiebreak (row : Row) (height area : ℚ)
    (hres : isResOf row = false) (hcom : isComOf row = false) :
    (area * height > 5000 →
      classify_building row height area =
        ("commercial", min 1 ((rhe (area * height * JOB_DENSITY_FACTOR) : ℚ) / 1000),
         0, rhe (area * height * JOB_DENSITY_FACTOR)))
    ∧ (¬ area * height > 5000 →
      classify_building row height area =
        ("residential", min 1 ((rhe (area * height * POP_DENSITY_FACTOR) : ℚ) / 500),
         rhe (area * height * POP_DENSITY_FACTOR), 0))
    ∧ classify_building [("building", TagVal.s "yes")] 10 600 = ("commercial", 12/25, 0, 480)
    ∧ classify_building [("building", TagVal.s "apartments")] 10 20 = ("residential", 1/50, 10, 0) := by
  refine ⟨?_, ?_, ?_, ?_⟩
  · intro hv
    simp [classify_building, hres, hcom, hv]
  · intro hv
    simp [classify_building, hres, hcom, hv]
  · simp [classify_building, isResOf, isComOf, residential_tags, commercial_tags, tagLower,
          lowerChars, pyStr, strContains, List.isPrefixOf, rhe, JOB_DENSITY_FACTOR, List.lookup]
    norm_num [round_eq, min_def]
  · simp [classify_building, isResOf, isComOf, residential_tags, commercial_tags, tagLower,
          lowerChars, pyStr, strContains, List.isPrefixOf, rhe, POP_DENSITY_FACTOR, List.lookup]
    norm_num [round_eq, min_def]

/-- C4, witness: the tie-break theorem applied to the generic yes
building of volume 6000. -/
theorem C4_volume_tiebreak_witness :
    isResOf [("building", TagVal.s "yes")] = false
    ∧ isComOf [("building", TagVal.s "yes")] = false
    ∧ (600 * 10 : ℚ) > 5000
    ∧ classify_building [("building", TagVal.s "yes")] 10 600 =
        ("commercial", min 1 ((rhe (600 * 10 * JOB_DENSITY_FACTOR) : ℚ) / 1000),
         0, rhe (600 * 10 * JOB_DENSITY_FACTOR)) := by
  refine ⟨by decide, by decide, by norm_num, ?_⟩
  exact (C4_volume_tiebreak [("building", TagVal.s "yes")] 10 600 (by decide) (by decide)).1
    (by norm_num)

/-- Rounding half-to-even preserves non-negativity. -/
theorem rhe_nonneg (q : ℚ) (h : 0 ≤ q) : 0 ≤ rhe q := by
  unfold rhe
  split_ifs with h1 h2
  · exact Int.le_floor.mpr (by exact_mod_cast h)
  · have hf : (0 : ℤ) ≤ ⌊q⌋ := Int.le_floor.mpr (by exact_mod_cast h)
    omega
  · rw [round_eq]
    refine Int.le_floor.mpr ?_
    push_cast
    linarith

/-- A saturated density score min(1, round(q)/c) lies in the unit
interval for non-negative q and positive c. -/
theorem density_bounds (q c : ℚ) (hq : 0 ≤ q) (hc : 0 < c) :
    0 ≤ min 1 ((rhe q : ℚ) / c) ∧ min 1 ((rhe q : ℚ) / c) ≤ 1 :=
  ⟨le_min (by norm_num) (div_nonneg (by exact_mod_cast rhe_nonneg q hq) hc.le),
   min_le_left _ _⟩

/-- C6: for every building row and non-negative area and height, the
density score classify_building returns lies in the unit interval, and
a result of category none carries density zero. -/
theorem C6_density_range (row : Row) (height area : ℚ)
    (h1 : 0 ≤ area) (h2 : 0 ≤ height) :
    0 ≤ (classify_building row height area).2.1
    ∧ (classify_building row height area).2.1 ≤ 1
    ∧ ((classify_building row height area).1 = "none" →
        (classify_building row height area).2.1 = 0) := by
  have hv : 0 ≤ area * height := mul_nonneg h1 h2
  have hpop := density_bounds (area * height * POP_DENSITY_FACTOR) 500
    (mul_nonneg hv (by norm_num [POP_DENSITY_FACTOR])) (by norm_num)
  have hjob := density_bounds (area * height * JOB_DENSITY_FACTOR) 1000
    (mul_nonneg hv (by norm_num [JOB_DENSITY_FACTOR])) (by norm_num)
  simp only [classify_building]
  split_ifs <;> simp_all

/-- C6, witness: the density bounds at a concrete building. -/
theorem C6_density_range_witness :
    (0 : ℚ) ≤ 600 ∧ (0 : ℚ) ≤ 10
    ∧ 0 ≤ (classify_building [("building", TagVal.s "yes")] 10 600).2.1
    ∧ (classify_building [("building", TagVal.s "yes")] 10 600).2.1 ≤ 1 := by
  have h := C6_density_range [("building", TagVal.s "yes")] 10 600 (by norm_num) (by norm_num)
  exact ⟨by norm_num, by norm_num, h.1, h.2.1⟩

/-- A pairwise fold of pop and jobs equals the pair of the two
independent sums. -/
theorem foldl_pair (l : List BuildingPoint) (a : ℤ × ℤ) :
    l.foldl (fun a b => (a.1 + b.pop, a.2 + b.jobs)) a =
      (a.1 + (l.map (fun b => b.pop)).sum, a.2 + (l.map (fun b => b.jobs)).sum) := by
  induction l generalizing a with
  | nil => simp
  | cons b t ih => simp [ih, add_assoc]

/-- C5: the per-node aggregation equals the pair of independent sums
of pop and jobs over exactly the indexed building centroids within the
fixed 100 m radius; the boundary is inclusive: a building at distance
exactly 100 is counted and one at 100.01 is not; an empty index or an
empty query result yields zero for both aggregates. -/
theorem C5_node_aggregation :
    (∀ (bs : List BuildingPoint) (nx ny : ℚ),
      nodeStats bs nx ny =
        (((bs.filter (fun b => withinRadius b nx ny AGG_RADIUS)).map (fun b => b.pop)).sum,
         ((bs.filter (fun b => withinRadius b nx ny AGG_RADIUS)).map (fun b => b.jobs)).sum))
    ∧ (∀ nx ny : ℚ, nodeStats [] nx ny = (0, 0))
    ∧ withinRadius ⟨0, 0, 10, 0⟩ 100 0 AGG_RADIUS = true
    ∧ withinRadius ⟨0, 0, 10, 0⟩ (10001/100) 0 AGG_RADIUS = false
    ∧ nodeStats [⟨0, 0, 10, 0⟩] 100 0 = (10, 0)
    ∧ nodeStats [⟨0, 0, 10, 0⟩] (10001/100) 0 = (0, 0) := by
  have hmain : ∀ (bs : List BuildingPoint) (nx ny : ℚ),
      nodeStats bs nx ny =
        (((bs.filter (fun b => withinRadius b nx ny AGG_RADIUS)).map (fun b => b.pop)).sum,
         ((bs.filter (fun b => withinRadius b nx ny AGG_RADIUS)).map (fun b => b.jobs)).sum) := by
    intro bs nx ny
    unfold nodeStats
    cases bs with
    | nil => simp
    | cons b t =>
        simp only [List.isEmpty_cons, if_false]
        by_cases hne : ((b :: t).filter (fun b => withinRadius b nx ny AGG_RADIUS)).isEmpty
        · rw [if_pos hne]
          rw [List.isEmpty_iff] at hne
          rw [hne]
          simp
        · rw [if_neg hne]
          rw [foldl_pair]
          simp
  have h100 : withinRadius ⟨0, 0, 10, 0⟩ 100 0 AGG_RADIUS = true := by
    simp [withinRadius, AGG_RADIUS]
  have h10001 : withinRadius ⟨0, 0, 10, 0⟩ (10001/100) 0 AGG_RADIUS = false := by
    simp [withinRadius, AGG_RADIUS]
    norm_num
  refine ⟨hmain, fun nx ny => by simp [nodeStats], h100, h10001, ?_, ?_⟩
  · rw [hmain]
    simp [h100]
  · rw [hmain]
    simp [h10001]

/-- Mapping a constant function over a list yields a replicate of its
length. -/
theorem map_const_len {α β : Type} (l : List α) (b : β) :
    l.map (fun _ => b) = List.replicate l.length b := by
  induction l with
  | nil => rfl
  | cons x t ih => simp [List.replicate_succ, ih]

/-- C7: a building feature whose geometry is a multi-polygon with N
parts emits N building records, each re-using the same derived height,
category, density, pop and jobs of the parent feature, and enters the
parent centroid with the full pop and jobs pair N times into the list
feeding the spatial index. -/
theorem C7_multipart_duplication (f : Feature) (cx cy : ℚ) (ps : List Poly)
    (hg : f.geom = Geom.multiPolygon ps)
    (hb : tagPresent f.row "building" = true) :
    (processFeature f cx cy).1 =
      ps.map (fun p =>
        { shape := extractPoly p cx cy,
          height := get_height f.row,
          btype := (classify_building f.row (get_height f.row) f.area).1,
          density := (classify_building f.row (get_height f.row) f.area).2.1,
          pop := (classify_building f.row (get_height f.row) f.area).2.2.1,
          jobs := (classify_building f.row (get_height f.row) f.area).2.2.2 })
    ∧ (processFeature f cx cy).2.2.2 =
        List.replicate ps.length
          { x := f.centroid.1 - cx, y := f.centroid.2 - cy,
            pop := (classify_building f.row (get_height f.row) f.area).2.2.1,
            jobs := (classify_building f.row (get_height f.row) f.area).2.2.2 }
    ∧ (processFeature f cx cy).1.length = ps.length := by
  simp only [processFeature, visKind, hb, if_true, hg, parse_geometry]
  refine ⟨by simp, ?_, by simp⟩
  rw [map_const_len]
  simp

/-- C9: when the source graph is well formed (every edge endpoint is
a node of the node frame, the networkx invariant graph_to_gdfs
preserves), every u and v referenced by an assembled edge record is a
key of the assembled node map; an edge whose attribute lookup fails is
dropped entirely — the assembled edges are exactly the map over the
edges that do have an attribute row — so dropping cannot break the
referential integrity of the remaining edges. -/
theorem C9_referential_integrity (g : RGraph)
    (h : ∀ e ∈ g.edges, e.1 ∈ assembleNodeIds g ∧ e.2.1 ∈ assembleNodeIds g) :
    (∀ p ∈ assembleEdges g, p.1 ∈ assembleNodeIds g ∧ p.2 ∈ assembleNodeIds g)
    ∧ assembleEdges g =
        (g.edges.filter (fun e => (g.edgeRows.lookup e).isSome)).map
          (fun e => (e.1, e.2.1)) := by
  constructor
  · intro p hp
    simp only [assembleEdges, List.mem_filterMap] at hp
    obtain ⟨e, he, hsome⟩ := hp
    cases hrow : g.edgeRows.lookup e with
    | none => rw [hrow] at hsome; simp at hsome
    | some r =>
        rw [hrow] at hsome
        simp at hsome
        rw [← hsome]
        exact h e he
  · have haux : ∀ es : List (ℤ × ℤ × ℤ),
        (es.filterMap (fun e =>
          match g.edgeRows.lookup e with
          | none => none
          | some _ => some (e.1, e.2.1))) =
        (es.filter (fun e => (g.edgeRows.lookup e).isSome)).map (fun e => (e.1, e.2.1)) := by
      intro es
      induction es with
      | nil => rfl
      | cons e t ih =>
          cases hrow : g.edgeRows.lookup e with
          | none => simp [List.filterMap_cons, List.filter_cons, hrow, ih]
          | some r => simp [List.filterMap_cons, List.filter_cons, hrow, ih]
    exact haux g.edges

/-- C10: every feature whose building tag is absent or nan and whose
natural and water tags are absent or nan is dispatched to the park arm
regardless of any amenity, office, shop, leisure or landuse value,
because the per-feature dispatch checks building, then natural or
water, then falls through to parks unconditionally. -/
theorem C10_park_fallthrough (row : Row)
    (hb : tagPresent row "building" = false)
    (hn : tagPresent row "natural" = false)
    (hw : tagPresent row "water" = false) :
    visKind row = VisKind.park
    ∧ ∀ (g : Geom) (area : ℚ) (c : ℚ × ℚ) (cx cy : ℚ),
        processFeature ⟨row, g, area, c⟩ cx cy = ([], [], parse_geometry g cx cy, []) := by
  have hk : visKind row = VisKind.park := by simp [visKind, hb, hn, hw]
  exact ⟨hk, fun g area c cx cy => by simp [processFeature, hk]⟩

/-- C7, witness: a concrete two-part multi-polygon building yields
two records and two index entries. -/
theorem C7_multipart_duplication_witness :
    (processFeature
        ⟨[("building", TagVal.s "yes")],
         Geom.multiPolygon
           [⟨[(0, 0), (10, 0), (10, 10), (0, 0)], []⟩,
            ⟨[(20, 0), (30, 0), (30, 10), (20, 0)], []⟩],
         600, (5, 5)⟩ 0 0).1.length = 2
    ∧ (processFeature
        ⟨[("building", TagVal.s "yes")],
         Geom.multiPolygon
           [⟨[(0, 0), (10, 0), (10, 10), (0, 0)], []⟩,
            ⟨[(20, 0), (30, 0), (30, 10), (20, 0)], []⟩],
         600, (5, 5)⟩ 0 0).2.2.2.length = 2 := by
  have h := C7_multipart_duplication
    ⟨[("building", TagVal.s "yes")],
     Geom.multiPolygon
       [⟨[(0, 0), (10, 0), (10, 10), (0, 0)], []⟩,
        ⟨[(20, 0), (30, 0), (30, 10), (20, 0)], []⟩],
     600, (5, 5)⟩ 0 0
    [⟨[(0, 0), (10, 0), (10, 10), (0, 0)], []⟩,
     ⟨[(20, 0), (30, 0), (30, 10), (20, 0)], []⟩]
    rfl (by decide)
  refine ⟨by rw [h.2.2]; rfl, by rw [h.2.1]; simp⟩

/-- C9, witness: a concrete graph with one rowless edge, which is
dropped while the surviving edge references existing node keys. -/
theorem C9_referential_integrity_witness :
    assembleEdges ⟨[(1, 0, 0), (2, 0, 0)], [(1, 2, 0), (2, 1, 1)], [((1, 2, 0), [])]⟩ = [(1, 2)]
    ∧ (1 : ℤ) ∈ assembleNodeIds ⟨[(1, 0, 0), (2, 0, 0)], [(1, 2, 0), (2, 1, 1)], [((1, 2, 0), [])]⟩
    ∧ (2 : ℤ) ∈ assembleNodeIds ⟨[(1, 0, 0), (2, 0, 0)], [(1, 2, 0), (2, 1, 1)], [((1, 2, 0), [])]⟩ := by
  have h := C9_referential_integrity
    ⟨[(1, 0, 0), (2, 0, 0)], [(1, 2, 0), (2, 1, 1)], [((1, 2, 0), [])]⟩ (by decide)
  have hm := h.1 (1, 2) (by decide)
  exact ⟨by rw [h.2]; rfl, hm.1, hm.2⟩

/-- C10, witness: a feature carrying only amenity and leisure tags is
emitted as a park. -/
theorem C10_park_fallthrough_witness :
    visKind [("amenity", TagVal.s "restaurant"), ("leisure", TagVal.s "park")] = VisKind.park
    ∧ processFeature
        ⟨[("amenity", TagVal.s "restaurant"), ("leisure", TagVal.s "park")],
         Geom.polygon ⟨[(0, 0), (1, 0), (1, 1), (0, 0)], []⟩, 1, (0, 0)⟩ 0 0 =
      ([], [], parse_geometry (Geom.polygon ⟨[(0, 0), (1, 0), (1, 1), (0, 0)], []⟩) 0 0, []) := by
  have h := C10_park_fallthrough
    [("amenity", TagVal.s "restaurant"), ("leisure", TagVal.s "park")]
    (by decide) (by decide) (by decide)
  exact ⟨h.1, h.2 (Geom.polygon ⟨[(0, 0), (1, 0), (1, 1), (0, 0)], []⟩) 1 (0, 0) 0 0⟩

end CitySim
